import Mathlib

/-!
Verification development for a small image-studio web application.

The application consists of
- an API route (src/app/api/images/route.ts) proxying generate / edit /
  variation requests to an external image API, and
- a studio client component maintaining a browser-local gallery with
  add / delete / clear / search / JSON import / JSON export operations and a
  canvas overlay drawn on exported images.

The development below is a shallow embedding of that code: each TypeScript
function relevant to the stated properties is translated into an executable
Lean definition, and the properties are proved or refuted about those
definitions.  JavaScript strings are modelled by Lean strings, with the
JavaScript primitives (toLowerCase, trim, split, includes, truthiness)
implemented explicitly over character lists so that everything evaluates
inside the kernel.
-/

/-! ## JavaScript string and truthiness primitives -/

/-- Truthy-or-default for an optional string field: in JavaScript `x || d`
yields `d` both when the field is missing and when it is the empty string
(both are falsy). -/
def jsOr (v : Option String) (d : String) : String :=
  match v with
  | none => d
  | some s => if s = "" then d else s

/-- JavaScript toLowerCase, modelled per character. -/
def jsToLower (s : String) : String :=
  String.mk (s.toList.map Char.toLower)

/-- Helper for substring search: does the needle occur starting at some
position of the haystack list. -/
def strIncludesAux (needle : List Char) : List Char → Bool
  | [] => needle.isEmpty
  | c :: cs => needle.isPrefixOf (c :: cs) || strIncludesAux needle cs

/-- JavaScript String.prototype.includes: the needle occurs as a contiguous
substring of the haystack. -/
def strIncludes (hay needle : String) : Bool :=
  strIncludesAux needle.toList hay.toList

/-- JavaScript String.prototype.trim: strip whitespace from both ends. -/
def jsTrim (s : String) : String :=
  String.mk (((s.toList.dropWhile Char.isWhitespace).reverse.dropWhile
    Char.isWhitespace).reverse)

/-- Splitting on single separator characters, as JavaScript
`split(/[,\n]/g)` does: adjacent separators produce empty pieces. -/
def splitAnyAux (sep : Char → Bool) : List Char → List Char → List String
  | [], acc => [String.mk acc.reverse]
  | c :: cs, acc =>
    if sep c then String.mk acc.reverse :: splitAnyAux sep cs []
    else splitAnyAux sep cs (c :: acc)

/-- JavaScript split on a character class, e.g. `"a,,b".split(/[,\n]/g)`
gives `["a", "", "b"]`. -/
def jsSplitAny (s : String) (sep : Char → Bool) : List String :=
  splitAnyAux sep s.toList []

/-- Helper for splitting on whitespace runs, as JavaScript `split(/\s+/)`
does: a maximal run of whitespace is one separator, but a leading or
trailing run still contributes an empty piece.  The Bool flag records
whether we are inside a whitespace run whose piece was already emitted. -/
def jsSplitWSAux : Bool → List Char → List Char → List String
  | skipping, [], acc => if skipping then [""] else [String.mk acc.reverse]
  | skipping, c :: cs, acc =>
    if c.isWhitespace then
      if skipping then jsSplitWSAux true cs []
      else String.mk acc.reverse :: jsSplitWSAux true cs []
    else jsSplitWSAux false cs (c :: acc)

/-- JavaScript `s.split(/\s+/)`. -/
def jsSplitWS (s : String) : List String :=
  jsSplitWSAux false s.toList []

/-- JavaScript Array.prototype.join with a separator string. -/
def joinSep (sep : String) : List String → String
  | [] => ""
  | [x] => x
  | x :: y :: xs => x ++ sep ++ joinSep sep (y :: xs)

/-! ## The API route (src/app/api/images/route.ts)

The route reads `process.env.OPENAI_API_KEY` (modelled as an
`Option String`, where an unset or empty value is falsy and makes
`getOpenAI` throw), inspects the content type, and forwards one call to the
external image API.  The external API is modelled as an oracle
`api : ApiCall → ApiResult`; the route returns the HTTP response together
with the list of external calls it performed. -/

/-- A value returned by `form.get(...)` for a file-valued field: either an
uploaded file (a `File` instance, identified here by its contents) or a
plain string.  `form.get` returning `null` is modelled by `Option`. -/
inductive FormEntry where
  | file (contents : String)
  | str (s : String)
deriving DecidableEq

/-- The fields of the multipart form read by the route.  The four text
fields are read with `(form.get(k) as string) || default`, the two file
fields with an `instanceof File` test. -/
structure StudioForm where
  action : Option String := none
  prompt : Option String := none
  size : Option String := none
  model : Option String := none
  image : Option FormEntry := none
  mask : Option FormEntry := none
deriving DecidableEq

/-- The JSON body type `GenerateBody` of the route. -/
structure GenerateBody where
  action : Option String := none
  prompt : Option String := none
  size : Option String := none
  model : Option String := none
deriving DecidableEq

/-- An incoming request: a content-type header (absent headers read as ""),
the result of parsing its body as multipart form data (`Except.error`
models `await req.formData()` rejecting, e.g. for a body without a valid
boundary, with the thrown message), and the result of parsing its body as
JSON (`Except.error` models `req.json()` throwing, with the thrown
message). -/
structure ImagesRequest where
  contentType : Option String := none
  formData : Except String StudioForm := Except.ok {}
  jsonBody : Except String GenerateBody := Except.error "Unexpected end of JSON input"

/-- One call to the external image API, with the exact parameters the route
passes: `generate`, `edit` (image plus optional mask) or `createVariation`.
`respFormat` is the optional `response_format` parameter. -/
inductive ApiCall where
  | generate (model prompt size : String) (respFormat : Option String)
  | edit (model prompt size : String) (image : String) (mask : Option String)
      (respFormat : Option String)
  | createVariation (model size : String) (image : String)
      (respFormat : Option String)
deriving DecidableEq

/-- The outcome of an external call: a thrown error with a message, or a
response whose `data` array holds items with an optional `b64_json`
field. -/
inductive ApiResult where
  | throwErr (message : String)
  | ok (data : List (Option String))
deriving DecidableEq

/-- A response body: the route only ever serializes `{ b64 }` or
`{ error }`. -/
inductive RespBody where
  | b64 (s : String)
  | error (msg : String)
deriving DecidableEq

/-- An HTTP response: status code and JSON body. -/
structure HttpResponse where
  status : Nat
  body : RespBody
deriving DecidableEq

/-- The expression `res.data?.[0]?.b64_json` of the route. -/
def firstB64 (data : List (Option String)) : Option String :=
  data.head?.bind id

/-- Turning an external call outcome into the response the route builds
from it: a thrown error propagates to the outer catch
(`err?.message || "Unknown error"`, status 500); `if (!b64)` treats a
missing and an empty image alike and yields the 500 "no image returned";
otherwise status 200 with `{ b64 }`. -/
def b64Response (r : ApiResult) : HttpResponse :=
  match r with
  | .throwErr msg =>
    { status := 500, body := .error (if msg = "" then "Unknown error" else msg) }
  | .ok data =>
    match firstB64 data with
    | none => { status := 500, body := .error "no image returned" }
    | some b64 =>
      if b64 = "" then { status := 500, body := .error "no image returned" }
      else { status := 200, body := .b64 b64 }

/-- The POST handler of src/app/api/images/route.ts.  Returns the response
together with the list of external API calls performed.  On the multipart
path a rejection of `await req.formData()` propagates to the outer catch,
like a rejection of `req.json()` on the JSON path
(`err?.message || "Unknown error"`, status 500). -/
def POST (apiKey : Option String) (api : ApiCall → ApiResult)
    (req : ImagesRequest) : HttpResponse × List ApiCall :=
  let contentType := req.contentType.getD ""
  if jsOr apiKey "" = "" then
    ({ status := 500, body := .error "OPENAI_API_KEY is not set" }, [])
  else if strIncludes contentType "multipart/form-data" then
    match req.formData with
    | .error msg =>
      ({ status := 500, body := .error (if msg = "" then "Unknown error" else msg) }, [])
    | .ok form =>
      let action := jsOr form.action "generate"
      let prompt := jsOr form.prompt ""
      let size := jsOr form.size "1024x1024"
      let model := jsOr form.model "gpt-image-1"
      if action = "edit" then
        match form.image with
        | some (.file img) =>
          let mask := match form.mask with
            | some (.file m) => some m
            | _ => none
          let call := ApiCall.edit model prompt size img mask
            (if strIncludes model "dall-e" then some "b64_json" else none)
          (b64Response (api call), [call])
        | _ => ({ status := 400, body := .error "image file is required for edit" }, [])
      else if action = "variation" then
        match form.image with
        | some (.file img) =>
          let varModel := if strIncludes model "dall-e" then model else "dall-e-2"
          let call := ApiCall.createVariation varModel size img (some "b64_json")
          (b64Response (api call), [call])
        | _ => ({ status := 400, body := .error "image file is required for variation" }, [])
      else
        let call := ApiCall.generate model prompt size
          (if strIncludes model "dall-e" then some "b64_json" else none)
        (b64Response (api call), [call])
  else
    match req.jsonBody with
    | .error msg =>
      ({ status := 500, body := .error (if msg = "" then "Unknown error" else msg) }, [])
    | .ok body =>
      let prompt := jsOr body.prompt ""
      let size := jsOr body.size "1024x1024"
      let model := jsOr body.model "gpt-image-1"
      let call := ApiCall.generate model prompt size
        (if strIncludes model "dall-e" then some "b64_json" else none)
      (b64Response (api call), [call])

/-! ## The gallery (studio client component)

`GalleryItem` is the stored record.  Although the TypeScript type gives
`action` and `size` enum types, the import path only applies type casts to
them (`x.action as Action`), which do nothing at runtime, so the faithful
runtime model is plain strings.  `tags` is an optional field
(`tags?: string[]`). -/

structure GalleryItem where
  id : String
  createdAt : String
  prompt : String
  action : String
  size : String
  model : String
  b64 : String
  tags : Option (List String)
deriving DecidableEq

/-- The parseTags function: split the input on commas and newlines, trim
each piece, drop empties, keep at most 20. -/
def parseTags (input : String) : List String :=
  (((jsSplitAny input (fun c => c == ',' || c == '\n')).map jsTrim).filter
    (fun t => t.length != 0)).take 20

/-- The item handleSubmit adds to the gallery on a successful response:
the current form fields plus `tags: parseTags(tagsInput)`. -/
def submissionItem (id createdAt prompt action size model b64 tagsInput : String) :
    GalleryItem :=
  { id := id, createdAt := createdAt, prompt := prompt, action := action,
    size := size, model := model, b64 := b64,
    tags := some (parseTags tagsInput) }

/-- The addToGallery update: prepend the new item and truncate to 100. -/
def addToGallery (item : GalleryItem) (prev : List GalleryItem) : List GalleryItem :=
  (item :: prev).take 100

/-- The deleteFromGallery update: keep the items whose id differs. -/
def deleteFromGallery (id : String) (prev : List GalleryItem) : List GalleryItem :=
  prev.filter (fun g => g.id != id)

/-- The "Clear all" button: the gallery becomes empty. -/
def clearGallery : List GalleryItem := []

/-- The coercion loadGalleryFromStorage applies to an already-parsed stored
array: each item keeps its fields, with a missing or non-array `tags`
replaced by the empty list. -/
def loadGalleryFromStorage (parsed : List GalleryItem) : List GalleryItem :=
  parsed.map (fun it => { it with tags := some (it.tags.getD []) })

/-- One entry of an imported JSON array, restricted to the fields
handleImportFile reads.  `none` models a missing (or falsy-empty, for the
string fields, via `jsOr`) field; for `tags` it models a missing or
non-array value. -/
structure RawEntry where
  id : Option String := none
  createdAt : Option String := none
  prompt : Option String := none
  action : Option String := none
  size : Option String := none
  model : Option String := none
  b64 : Option String := none
  tags : Option (List String) := none
deriving DecidableEq

/-- The per-entry coercion of handleImportFile.  `fresh` supplies the pair
(generateId(), new Date().toISOString()) that the arrow function would
produce for this entry when `id` or `createdAt` is missing. -/
def importEntry (fresh : String × String) (x : RawEntry) : GalleryItem :=
  { id := jsOr x.id fresh.1,
    createdAt := jsOr x.createdAt fresh.2,
    prompt := jsOr x.prompt "",
    action := jsOr x.action "generate",
    size := jsOr x.size "1024x1024",
    model := jsOr x.model "gpt-image-1",
    b64 := jsOr x.b64 "",
    tags := some (x.tags.getD []) }

/-- The `arr.map(...)` step of handleImportFile, with a per-index fresh
supply standing for the stateful generateId() and Date calls. -/
def importMap (fresh : Nat → String × String) (i : Nat) :
    List RawEntry → List GalleryItem
  | [] => []
  | x :: xs => importEntry (fresh i) x :: importMap fresh (i + 1) xs

/-- The `incoming` array of handleImportFile: map each raw entry to an
item, then discard items whose image payload is empty. -/
def importIncoming (fresh : Nat → String × String) (arr : List RawEntry) :
    List GalleryItem :=
  (importMap fresh 0 arr).filter (fun x => x.b64.length != 0)

/-- The merge step of handleImportFile: keep the incoming items whose id is
not already present, and place them before the previous items. -/
def importMerge (incoming prev : List GalleryItem) : List GalleryItem :=
  incoming.filter (fun i => !((prev.map (fun p => p.id)).contains i.id)) ++ prev

/-- The JSON view of one exported item, as exportGalleryAsJSON serializes
it: every string field is present with its value, and an undefined `tags`
field is omitted from the JSON. -/
def exportEntry (it : GalleryItem) : RawEntry :=
  { id := some it.id, createdAt := some it.createdAt, prompt := some it.prompt,
    action := some it.action, size := some it.size, model := some it.model,
    b64 := some it.b64, tags := it.tags }

/-- The exportGalleryAsJSON serialization of the whole gallery, viewed as
the raw array a later import would read back. -/
def exportGalleryAsJSON (gallery : List GalleryItem) : List RawEntry :=
  gallery.map exportEntry

/-- The item predicate of the filteredGallery memo, for an already trimmed
and lowercased query: the query occurs in the lowercased string
"prompt model action size", or in the lowercased space-joined tags. -/
def matchesQuery (q : String) (item : GalleryItem) : Bool :=
  let txt := jsToLower (item.prompt ++ " " ++ item.model ++ " " ++ item.action
    ++ " " ++ item.size)
  let tagStr := jsToLower (joinSep " " (item.tags.getD []))
  strIncludes txt q || strIncludes tagStr q

/-- The filteredGallery memo: trim and lowercase the search query; an empty
query returns the gallery unchanged, otherwise filter by matchesQuery. -/
def filteredGallery (gallery : List GalleryItem) (searchQuery : String) :
    List GalleryItem :=
  let q := jsToLower (jsTrim searchQuery)
  if q = "" then gallery else gallery.filter (matchesQuery q)

/-- Modelled from the spec: "Search: case-insensitive substring match over
the concatenation of prompt, model, action, size, and tags."  The five
fields are joined into one space-separated string and the (un-trimmed)
query is matched against it, both lowercased.  Stated for comparison with
the source definition `filteredGallery`. -/
def specSearchMatch (q : String) (item : GalleryItem) : Bool :=
  strIncludes
    (jsToLower (item.prompt ++ " " ++ item.model ++ " " ++ item.action ++ " "
      ++ item.size ++ " " ++ joinSep " " (item.tags.getD [])))
    (jsToLower q)

/-! ## The export overlay (drawOverlay)

Only the text placed on the canvas is modelled: the list of word-wrapped
prompt lines and the metadata line.  The text measurement
`ctx.measureText(s).width` is an abstract measure `String → Nat`, and the
comparison `< maxPromptWidth` is over `Int` because
`width - pad * 2` can be negative for tiny widths.  The pixel geometry
(fill rectangle, font sizes, y positions) carries no text content and is
not modelled. -/

structure OverlayText where
  promptLines : List String
  metaLine : String
deriving DecidableEq

/-- The word-wrap loop of drawOverlay: greedily extend the current line
while the measured candidate stays below the available width, push the
finished line otherwise, stop as soon as two lines exist, and push a
non-empty pending line after the loop only when fewer than two lines were
made. -/
def wrapGo (measure : String → Nat) (maxW : Int) :
    List String → String → List String → List String
  | [], line, lines =>
    if line != "" && decide (lines.length < 2) then lines ++ [line] else lines
  | w :: ws, line, lines =>
    let test := if line != "" then line ++ " " ++ w else w
    let next : String × List String :=
      if (measure test : Int) < maxW then (test, lines)
      else if line != "" then (w, lines ++ [line]) else (w, lines)
    if next.2.length == 2 then next.2
    else wrapGo measure maxW ws next.1 next.2

/-- The prompt lines drawOverlay draws: split the prompt on whitespace and
run the greedy wrap with an empty initial line. -/
def wrapPromptLines (measure : String → Nat) (maxW : Int) (prompt : String) :
    List String :=
  wrapGo measure maxW (jsSplitWS prompt) "" []

/-- The metadata line drawOverlay draws below the prompt lines. -/
def overlayMeta (item : GalleryItem) : String :=
  item.action ++ " • " ++ item.size ++ " • " ++ item.model ++ " • "
    ++ joinSep ", " (item.tags.getD [])

/-- The text content drawOverlay places on the canvas, for an abstract text
measure.  `pad` and `maxPromptWidth` follow the source arithmetic
(Math.floor of a proportion of the width, with the stated minimum). -/
def drawOverlay (measure : String → Nat) (item : GalleryItem)
    (width : Nat) : OverlayText :=
  let pad : Nat := max 16 (width * 2 / 100)
  let maxPromptWidth : Int := (width : Int) - (pad : Int) * 2
  { promptLines := wrapPromptLines measure maxPromptWidth item.prompt,
    metaLine := overlayMeta item }

/-! ## Shared helper lemmas and concrete inputs -/

theorem length_ne_zero_of_ne_empty {s : String} (h : s ≠ "") :
    (s.length != 0) = true := by
  rcases s with ⟨data⟩
  cases data with
  | nil => exact absurd rfl h
  | cons c cs => simp [String.length]

theorem jsOr_some_of_ne {s : String} (d : String) (h : s ≠ "") :
    jsOr (some s) d = s := by
  simp [jsOr, h]

theorem not_mem_of_contains_eq_false {l : List String} {a : String}
    (h : l.contains a = false) : a ∉ l := by
  intro hm
  rw [← List.elem_iff] at hm
  simp only [List.contains] at h
  rw [hm] at h
  cases h

/-- An external API oracle that always returns one image. -/
def apiConst : ApiCall → ApiResult := fun _ => ApiResult.ok [some "IMG"]

/-- A fresh-value supply for import (generateId and Date stand-ins). -/
def cexFresh : Nat → String × String := fun _ => ("fid", "fdate")

/-- A well-formed gallery item used in concrete instantiations. -/
def witItem : GalleryItem :=
  { id := "i1", createdAt := "2024-01-01", prompt := "p", action := "generate",
    size := "512x512", model := "gpt-image-1", b64 := "x", tags := some ["t"] }

/-- A raw import entry with an id and an image payload. -/
def dupEntry : RawEntry := { id := some "a", b64 := some "x" }

/-- A raw import entry with 21 tags and an image payload. -/
def tags21Entry : RawEntry :=
  { b64 := some "x", tags := some (List.replicate 21 "t") }

/-- A raw import entry with no fields at all. -/
def rawEmpty : RawEntry := {}

/-- A gallery item whose field values make the size and tags fields
adjacent in the concatenated search text. -/
def itemC7 : GalleryItem :=
  { id := "i", createdAt := "c", prompt := "a", action := "c", size := "d",
    model := "b", b64 := "x", tags := some ["e"] }

/-! ## C2: the 100-item cap -/

/-- C2 counterexample: importing a JSON array of 101 entries (each with an
image payload) into an empty gallery leaves 101 items, so the import
operation does not preserve the 100-item bound. -/
theorem import_exceeds_cap_cex :
    (importMerge (importIncoming cexFresh (List.replicate 101 dupEntry)) []).length
      = 101 := by decide

/-- C2 (amended): addToGallery prepends and truncates to 100, evicting from
the tail (the oldest item when the gallery was at the 100-item cap), and
delete and clear never increase the length; but importMerge never shrinks
the gallery and enforces no cap. -/
theorem gallery_cap_amended (item : GalleryItem) (prev : List GalleryItem)
    (id : String) (incoming : List GalleryItem) :
    (addToGallery item prev).length ≤ 100 ∧
    addToGallery item prev = item :: prev.take 99 ∧
    (prev.length = 100 → addToGallery item prev = item :: prev.dropLast) ∧
    (deleteFromGallery id prev).length ≤ prev.length ∧
    clearGallery = [] ∧
    prev.length ≤ (importMerge incoming prev).length := by
  refine ⟨?_, rfl, ?_, ?_, rfl, ?_⟩
  · simp [addToGallery]
  · intro h
    simp [addToGallery, List.dropLast_eq_take, h]
  · exact List.length_filter_le _ _
  · simp [importMerge]

/-- C2 witness: at a gallery already holding 100 items, adding prepends the
new item and drops the last one. -/
theorem gallery_cap_amended_witness :
    (addToGallery witItem (List.replicate 100 witItem)).length ≤ 100 ∧
    addToGallery witItem (List.replicate 100 witItem)
      = witItem :: (List.replicate 100 witItem).dropLast := by
  refine ⟨(gallery_cap_amended witItem (List.replicate 100 witItem) "i" []).1, ?_⟩
  exact (gallery_cap_amended witItem (List.replicate 100 witItem) "i" []).2.2.1
    (by decide)

/-! ## C3: import merge and duplicate ids -/

/-- C3 counterexample: an imported array holding two entries with the same
id is merged into an empty gallery without deduplication, so the merged
gallery holds two items with the same id. -/
theorem import_duplicate_ids_cex :
    ¬ ((importMerge (importIncoming cexFresh [dupEntry, dupEntry]) []).map
        (fun g => g.id)).Nodup := by decide

/-- C3 (amended): the merge keeps the previous items as the exact tail of
the result (so every pre-existing item keeps its position relative to the
other pre-existing items, and every kept imported item is placed before all
of them), and no kept imported item shares an id with a pre-existing item;
but entries of the imported array are not deduplicated among themselves. -/
theorem import_merge_structure (incoming prev : List GalleryItem) :
    ∃ kept : List GalleryItem,
      importMerge incoming prev = kept ++ prev ∧
      ∀ x ∈ kept, x ∈ incoming ∧ ∀ p ∈ prev, x.id ≠ p.id := by
  refine ⟨_, rfl, ?_⟩
  intro x hx
  rw [List.mem_filter] at hx
  refine ⟨hx.1, ?_⟩
  intro p hp hid
  have h2 : (prev.map (fun p => p.id)).contains x.id = false := by
    have := hx.2
    simpa using this
  have hmem : x.id ∈ prev.map (fun p => p.id) := by
    rw [hid]
    exact List.mem_map_of_mem _ hp
  exact not_mem_of_contains_eq_false h2 hmem

/-! ## C4: the 20-tag bound -/

/-- C4 counterexample: importing an entry with 21 tags yields a gallery
item with 21 tags; import does not truncate the tag list. -/
theorem import_tags_over_twenty_cex :
    ((importMerge (importIncoming cexFresh [tags21Entry]) []).map
      (fun g => (g.tags.getD []).length)) = [21] := by decide

/-- C4 (amended): an item built from a submission carries
parseTags(tagsInput), and parseTags always yields at most 20 tags; import
and load only coerce a missing tags field to the empty list, keeping a
present tag list at whatever length it has. -/
theorem tags_bound_amended (s idv cav pv av szv mv bv ti : String)
    (f : String × String) (x : RawEntry) (parsed : List GalleryItem) :
    (parseTags s).length ≤ 20 ∧
    ((submissionItem idv cav pv av szv mv bv ti).tags.getD []).length ≤ 20 ∧
    (importEntry f x).tags = some (x.tags.getD []) ∧
    (loadGalleryFromStorage parsed).map (fun g => g.tags)
      = parsed.map (fun g => some (g.tags.getD [])) := by
  have hp : ∀ t : String, (parseTags t).length ≤ 20 := by
    intro t
    simp only [parseTags, List.length_take]
    exact Nat.min_le_left _ _
  refine ⟨hp s, ?_, rfl, ?_⟩
  · simpa [submissionItem] using hp ti
  · simp [loadGalleryFromStorage]

/-! ## C5: export-then-import round trip -/

theorem jsOr_some_empty_default (s : String) : jsOr (some s) "" = s := by
  by_cases h : s = "" <;> simp [jsOr, h]

theorem importEntry_exportEntry (f : String × String) (it : GalleryItem)
    (h1 : it.id ≠ "") (h2 : it.createdAt ≠ "") (h3 : it.action ≠ "")
    (h4 : it.size ≠ "") (h5 : it.model ≠ "") (h6 : it.b64 ≠ "")
    (h7 : it.tags ≠ none) :
    importEntry f (exportEntry it) = it := by
  rcases it with ⟨idv, cav, prv, acv, szv, mov, bv, tg⟩
  cases tg with
  | none => exact absurd rfl h7
  | some l =>
    simp only [importEntry, exportEntry, jsOr_some_empty_default,
      jsOr_some_of_ne _ h1, jsOr_some_of_ne _ h2, jsOr_some_of_ne _ h3,
      jsOr_some_of_ne _ h4, jsOr_some_of_ne _ h5, jsOr_some_of_ne _ h6,
      Option.getD_some]

theorem importMap_exportEntry (fresh : Nat → String × String) :
    ∀ g : List GalleryItem,
      (∀ it ∈ g, it.id ≠ "" ∧ it.createdAt ≠ "" ∧ it.action ≠ "" ∧
        it.size ≠ "" ∧ it.model ≠ "" ∧ it.b64 ≠ "" ∧ it.tags ≠ none) →
      ∀ i, importMap fresh i (g.map exportEntry) = g := by
  intro g
  induction g with
  | nil => intro _ i; rfl
  | cons a as ih =>
    intro hg i
    have ha := hg a (List.mem_cons_self a as)
    show importEntry (fresh i) (exportEntry a)
        :: importMap fresh (i + 1) (as.map exportEntry) = a :: as
    rw [importEntry_exportEntry (fresh i) a ha.1 ha.2.1 ha.2.2.1 ha.2.2.2.1
      ha.2.2.2.2.1 ha.2.2.2.2.2.1 ha.2.2.2.2.2.2]
    rw [ih (fun it hit => hg it (List.mem_cons_of_mem a hit)) (i + 1)]

theorem importMerge_nil (l : List GalleryItem) : importMerge l [] = l := by
  simp only [importMerge, List.map_nil, List.append_nil]
  exact List.filter_eq_self.mpr (fun a _ => rfl)

/-- C5: exporting a gallery whose items have non-empty (JS-truthy) id,
createdAt, action, size, model and b64 fields and a present tags array,
then importing the exported JSON into an empty gallery, reproduces the
gallery exactly, every field of every item preserved. -/
theorem export_import_roundtrip (fresh : Nat → String × String)
    (gallery : List GalleryItem)
    (h : ∀ it ∈ gallery, it.id ≠ "" ∧ it.createdAt ≠ "" ∧ it.action ≠ "" ∧
      it.size ≠ "" ∧ it.model ≠ "" ∧ it.b64 ≠ "" ∧ it.tags ≠ none) :
    importMerge (importIncoming fresh (exportGalleryAsJSON gallery)) []
      = gallery := by
  have hmap : importMap fresh 0 (gallery.map exportEntry) = gallery :=
    importMap_exportEntry fresh gallery h 0
  have hfil : (importMap fresh 0 (gallery.map exportEntry)).filter
      (fun x => x.b64.length != 0) = gallery := by
    rw [hmap]
    exact List.filter_eq_self.mpr
      (fun a ha => length_ne_zero_of_ne_empty (h a ha).2.2.2.2.2.1)
  calc importMerge (importIncoming fresh (exportGalleryAsJSON gallery)) []
      = importIncoming fresh (exportGalleryAsJSON gallery) := importMerge_nil _
    _ = gallery := hfil

/-- C5 witness: the round trip at a concrete one-item gallery. -/
theorem export_import_roundtrip_witness :
    importMerge (importIncoming cexFresh (exportGalleryAsJSON [witItem])) []
      = [witItem] :=
  export_import_roundtrip cexFresh [witItem] (by decide)

/-! ## C8: import coercion of partial entries -/

/-- C8: a missing or non-array tags field becomes the empty list; missing
id and createdAt are replaced by the freshly generated values, and missing
prompt, action, size, model by their literal defaults; and an entry whose
image payload is missing or empty never yields a gallery item (every
incoming item has a non-empty payload, and the coerced item of a
payload-less entry is never among the incoming items). -/
theorem import_coercion_defaults (f : String × String) (x : RawEntry)
    (fresh : Nat → String × String) (arr : List RawEntry) :
    (x.tags = none → (importEntry f x).tags = some []) ∧
    (x.id = none → (importEntry f x).id = f.1) ∧
    (x.createdAt = none → (importEntry f x).createdAt = f.2) ∧
    (x.prompt = none → (importEntry f x).prompt = "") ∧
    (x.action = none → (importEntry f x).action = "generate") ∧
    (x.size = none → (importEntry f x).size = "1024x1024") ∧
    (x.model = none → (importEntry f x).model = "gpt-image-1") ∧
    (∀ g ∈ importIncoming fresh arr, g.b64 ≠ "") ∧
    (jsOr x.b64 "" = "" → importEntry f x ∉ importIncoming fresh arr) := by
  have h8 : ∀ g ∈ importIncoming fresh arr, g.b64 ≠ "" := by
    intro g hg he
    have hfil := (List.mem_filter.mp hg).2
    rw [he] at hfil
    exact absurd hfil (by decide)
  refine ⟨?_, ?_, ?_, ?_, ?_, ?_, ?_, h8, ?_⟩
  · intro h; simp [importEntry, h]
  · intro h; simp [importEntry, h, jsOr]
  · intro h; simp [importEntry, h, jsOr]
  · intro h; simp [importEntry, h, jsOr]
  · intro h; simp [importEntry, h, jsOr]
  · intro h; simp [importEntry, h, jsOr]
  · intro h; simp [importEntry, h, jsOr]
  · intro hb hmem
    exact h8 _ hmem hb

/-- C8 witness: the coercion at a concrete entry with no fields, and the
discarding of that payload-less entry. -/
theorem import_coercion_defaults_witness :
    (importEntry ("fid", "fdate") rawEmpty).tags = some [] ∧
    (importEntry ("fid", "fdate") rawEmpty).id = "fid" ∧
    (importEntry ("fid", "fdate") rawEmpty).createdAt = "fdate" ∧
    (importEntry ("fid", "fdate") rawEmpty).prompt = "" ∧
    (importEntry ("fid", "fdate") rawEmpty).action = "generate" ∧
    (importEntry ("fid", "fdate") rawEmpty).size = "1024x1024" ∧
    (importEntry ("fid", "fdate") rawEmpty).model = "gpt-image-1" ∧
    importEntry ("fid", "fdate") rawEmpty ∉ importIncoming cexFresh [rawEmpty] := by
  have h := import_coercion_defaults ("fid", "fdate") rawEmpty cexFresh [rawEmpty]
  exact ⟨h.1 rfl, h.2.1 rfl, h.2.2.1 rfl, h.2.2.2.1 rfl, h.2.2.2.2.1 rfl,
    h.2.2.2.2.2.1 rfl, h.2.2.2.2.2.2.1 rfl, h.2.2.2.2.2.2.2.2 rfl⟩

/-! ## C7: the search filter -/

/-- C7 counterexample: for the item with prompt "a", model "b", action "c",
size "d" and tags ["e"], the query "d e" is a substring of the lowercased
concatenation of the five fields, yet the filter rejects the item — the
code matches the query against the field text and the tag text separately,
so a query spanning the boundary between the size and the first tag never
matches. -/
theorem search_concat_boundary_cex :
    specSearchMatch "d e" itemC7 = true ∧ filteredGallery [itemC7] "d e" = [] := by
  exact ⟨by decide, by decide⟩

/-- C7 (amended): an item is in the filtered result iff it is in the
gallery and either the trimmed lowercased query is empty, or that query is
a substring of the lowercased text "prompt model action size", or a
substring of the lowercased space-joined tags.  Matching is
case-insensitive but the query is also trimmed, and the fields and the
tags are matched as two separate strings, not one concatenation. -/
theorem filteredGallery_mem_iff (gallery : List GalleryItem) (q : String)
    (item : GalleryItem) :
    item ∈ filteredGallery gallery q ↔
      item ∈ gallery ∧
        (jsToLower (jsTrim q) = "" ∨
          strIncludes (jsToLower (item.prompt ++ " " ++ item.model ++ " "
              ++ item.action ++ " " ++ item.size)) (jsToLower (jsTrim q)) = true ∨
          strIncludes (jsToLower (joinSep " " (item.tags.getD [])))
              (jsToLower (jsTrim q)) = true) := by
  by_cases hq : jsToLower (jsTrim q) = ""
  · simp [filteredGallery, hq]
  · simp only [filteredGallery, hq, if_false, List.mem_filter, matchesQuery]
    constructor
    · rintro ⟨hm, hmatch⟩
      rw [Bool.or_eq_true] at hmatch
      exact ⟨hm, Or.inr hmatch⟩
    · rintro ⟨hm, hor⟩
      refine ⟨hm, ?_⟩
      rw [Bool.or_eq_true]
      rcases hor with h | h | h
      · exact h.elim
      · exact Or.inl h
      · exact Or.inr h

/-! ## C9: the export overlay text -/

theorem wrapGo_length_le (measure : String → Nat) (maxW : Int) :
    ∀ (ws : List String) (line : String) (lines : List String),
      lines.length < 2 → (wrapGo measure maxW ws line lines).length ≤ 2 := by
  intro ws
  induction ws with
  | nil =>
    intro line lines hlt
    rw [wrapGo]
    split
    · simp only [List.length_append, List.length_singleton]
      omega
    · omega
  | cons w rest ih =>
    intro line lines hlt
    rw [wrapGo]
    have hnext : ∀ next : String × List String,
        (next.2 = lines ∨ next.2 = lines ++ [line]) →
        (if next.2.length == 2 then next.2
          else wrapGo measure maxW rest next.1 next.2).length ≤ 2 := by
      intro next hcases
      by_cases h2 : (next.2.length == 2) = true
      · rw [if_pos h2]
        have : next.2.length = 2 := by simpa using h2
        omega
      · rw [if_neg h2]
        apply ih
        have hne : next.2.length ≠ 2 := by simpa using h2
        rcases hcases with h | h
        · rw [h]
          omega
        · rw [h] at hne ⊢
          simp only [List.length_append, List.length_singleton] at hne ⊢
          omega
    apply hnext
    dsimp only
    repeat' split
    all_goals first
      | exact Or.inl rfl
      | exact Or.inr rfl

theorem wrapGo_all_fit (measure : String → Nat) (maxW : Int)
    (hfit : ∀ s, (measure s : Int) < maxW) :
    ∀ (ws : List String) (line : String), line ≠ "" →
      wrapGo measure maxW ws line []
        = [ws.foldl (fun a w => a ++ " " ++ w) line] := by
  intro ws
  induction ws with
  | nil =>
    intro line hl
    have hb : (line != "") = true := by simpa using hl
    simp [wrapGo, hb]
  | cons w rest ih =>
    intro line hl
    have hb : (line != "") = true := by simpa using hl
    have hne : (line ++ " " ++ w) ≠ "" := by
      intro h
      have hlen := congrArg String.length h
      rw [String.length_append, String.length_append] at hlen
      have h1 : (" " : String).length = 1 := rfl
      have h0 : ("" : String).length = 0 := rfl
      omega
    simp only [wrapGo, hb, if_true]
    rw [if_pos (hfit (line ++ " " ++ w))]
    simp only [List.length_nil, Nat.reduceBEq, if_false, List.foldl_cons]
    exact ih (line ++ " " ++ w) hne

/-- C9: the overlay text always consists of at most two word-wrapped
prompt lines plus exactly one metadata line of the form
"action • size • model • tags" (tags comma-joined); and whenever every
measured candidate stays below the available band width, the greedy wrap
accumulates all words into a single space-joined line. -/
theorem drawOverlay_text_shape (measure : String → Nat) (item : GalleryItem)
    (width : Nat) (maxW : Int) (line : String) (ws : List String) :
    (drawOverlay measure item width).promptLines.length ≤ 2 ∧
    (drawOverlay measure item width).metaLine
      = item.action ++ " • " ++ item.size ++ " • " ++ item.model ++ " • "
        ++ joinSep ", " (item.tags.getD []) ∧
    ((∀ s, (measure s : Int) < maxW) → line ≠ "" →
      wrapGo measure maxW ws line []
        = [ws.foldl (fun a w => a ++ " " ++ w) line]) := by
  refine ⟨?_, rfl, ?_⟩
  · exact wrapGo_length_le measure _ _ "" [] (by decide)
  · intro hfit hl
    exact wrapGo_all_fit measure maxW hfit ws line hl

/-- C9 witness: with a measure under which everything fits, the wrap of the
word list ["b"] onto the pending line "a" gives the single line "a b". -/
theorem drawOverlay_text_shape_witness :
    wrapGo (fun _ => 0) 1 ["b"] "a" [] = ["a b"] := by
  rw [(drawOverlay_text_shape (fun _ => 0) witItem 0 1 "a" ["b"]).2.2
    (fun s => by decide) (by decide)]
  decide

/-! ## C1, C6, C10: the API route -/

/-- A JSON request whose body carries action "edit". -/
def c1jsonReq : ImagesRequest :=
  { contentType := some "application/json",
    jsonBody := Except.ok { action := some "edit" } }

/-- A multipart edit request with no image file. -/
def c1multipartReq : ImagesRequest :=
  { contentType := some "multipart/form-data",
    formData := Except.ok { action := some "edit" } }

/-- A multipart request whose body fails to parse as form data. -/
def c6badFormReq : ImagesRequest :=
  { contentType := some "multipart/form-data",
    formData := Except.error "Failed to parse body as FormData" }

/-- A request whose body fails to parse as JSON. -/
def c6badJsonReq : ImagesRequest := { contentType := some "application/json" }

/-- C1 counterexample: a JSON request with action "edit" carries no image
file, yet the handler performs an external generate call and returns 200 —
not the 400 validation error. -/
theorem json_edit_bypasses_validation_cex :
    POST (some "k") apiConst c1jsonReq
      = ({ status := 200, body := RespBody.b64 "IMG" },
         [ApiCall.generate "gpt-image-1" "" "1024x1024" none]) := by decide

/-- C1 (amended): for a multipart/form-data request whose action is "edit"
or "variation" and which carries no image file, no external call is ever
made, and — provided the API key is set, since a missing key yields a 500
before the form is examined — the response is the 400 validation error. -/
theorem multipart_missing_image_rejected (apiKey : Option String)
    (api : ApiCall → ApiResult) (req : ImagesRequest) (form : StudioForm)
    (hfd : req.formData = Except.ok form)
    (hct : strIncludes (req.contentType.getD "") "multipart/form-data" = true)
    (hact : jsOr form.action "generate" = "edit" ∨
      jsOr form.action "generate" = "variation")
    (himg : ∀ f, form.image ≠ some (FormEntry.file f)) :
    (POST apiKey api req).2 = [] ∧
    (jsOr apiKey "" ≠ "" →
      (POST apiKey api req).1.status = 400 ∧
      ((POST apiKey api req).1.body
          = RespBody.error "image file is required for edit" ∨
        (POST apiKey api req).1.body
          = RespBody.error "image file is required for variation")) := by
  by_cases hkey : jsOr apiKey "" = ""
  · refine ⟨?_, fun hk => absurd hkey hk⟩
    simp only [POST, if_pos hkey]
  · have hVE : (("variation" : String) = "edit") = False := eq_false (by decide)
    have h400 : POST apiKey api req
        = ({ status := 400,
             body := RespBody.error "image file is required for edit" }, []) ∨
        POST apiKey api req
        = ({ status := 400,
             body := RespBody.error "image file is required for variation" }, []) := by
      rcases hact with ha | ha
      · left
        rcases himgEq : form.image with _ | entry
        · simp [POST, if_neg hkey, hct, hfd, ha, himgEq]
        · rcases entry with f | sv
          · exact absurd himgEq (himg f)
          · simp [POST, if_neg hkey, hct, hfd, ha, himgEq]
      · right
        rcases himgEq : form.image with _ | entry
        · simp [POST, if_neg hkey, hct, hfd, ha, hVE, himgEq]
        · rcases entry with f | sv
          · exact absurd himgEq (himg f)
          · simp [POST, if_neg hkey, hct, hfd, ha, hVE, himgEq]
    rcases h400 with h | h
    · rw [h]
      exact ⟨rfl, fun _ => ⟨rfl, Or.inl rfl⟩⟩
    · rw [h]
      exact ⟨rfl, fun _ => ⟨rfl, Or.inr rfl⟩⟩

/-- C1 witness: the concrete multipart edit request with no image file gets
the 400 and triggers no call. -/
theorem multipart_missing_image_rejected_witness :
    (POST (some "k") apiConst c1multipartReq).2 = [] ∧
    (POST (some "k") apiConst c1multipartReq).1.status = 400 := by
  have h := multipart_missing_image_rejected (some "k") apiConst c1multipartReq
    { action := some "edit" } rfl (by decide) (Or.inl (by decide))
    (fun f h => Option.noConfusion h)
  exact ⟨h.1, (h.2 (by decide)).1⟩

theorem b64Response_status_ne_400 (r : ApiResult) :
    (b64Response r).status ≠ 400 := by
  rcases r with m | data
  · simp [b64Response]
  · rcases h : firstB64 data with _ | s
    · simp [b64Response, h]
    · by_cases hs : s = "" <;> simp [b64Response, h, hs]

/-- C10: a request whose content type does not contain multipart/form-data
takes the JSON path, and — when the key is set and the body parses — the
handler performs exactly one external call, a generate call built from the
body fields, whatever the action field says; it never runs the image-file
validation (no 400). -/
theorem json_body_always_generates (apiKey : Option String)
    (api : ApiCall → ApiResult) (req : ImagesRequest) (body : GenerateBody)
    (hkey : jsOr apiKey "" ≠ "")
    (hct : strIncludes (req.contentType.getD "") "multipart/form-data" = false)
    (hb : req.jsonBody = Except.ok body) :
    (POST apiKey api req).2
      = [ApiCall.generate (jsOr body.model "gpt-image-1") (jsOr body.prompt "")
          (jsOr body.size "1024x1024")
          (if strIncludes (jsOr body.model "gpt-image-1") "dall-e"
            then some "b64_json" else none)] ∧
    (POST apiKey api req).1.status ≠ 400 := by
  have hp : POST apiKey api req
      = (b64Response (api (ApiCall.generate (jsOr body.model "gpt-image-1")
          (jsOr body.prompt "") (jsOr body.size "1024x1024")
          (if strIncludes (jsOr body.model "gpt-image-1") "dall-e"
            then some "b64_json" else none))),
        [ApiCall.generate (jsOr body.model "gpt-image-1") (jsOr body.prompt "")
          (jsOr body.size "1024x1024")
          (if strIncludes (jsOr body.model "gpt-image-1") "dall-e"
            then some "b64_json" else none)]) := by
    simp [POST, if_neg hkey, hct, hb]
  rw [hp]
  exact ⟨rfl, b64Response_status_ne_400 _⟩

/-- C10 witness: the JSON request with action "edit" triggers exactly the
generate call with the default model, prompt and size. -/
theorem json_body_always_generates_witness :
    (POST (some "k") apiConst c1jsonReq).2
      = [ApiCall.generate "gpt-image-1" "" "1024x1024" none] ∧
    (POST (some "k") apiConst c1jsonReq).1.status ≠ 400 := by
  have h := json_body_always_generates (some "k") apiConst c1jsonReq
    { action := some "edit" } (by decide) (by decide) rfl
  refine ⟨?_, h.2⟩
  rw [h.1]
  decide

theorem POST_cases (apiKey : Option String) (api : ApiCall → ApiResult)
    (req : ImagesRequest) :
    (jsOr apiKey "" = "" ∧ POST apiKey api req
        = ({ status := 500,
             body := RespBody.error "OPENAI_API_KEY is not set" }, [])) ∨
    (jsOr apiKey "" ≠ "" ∧
      strIncludes (req.contentType.getD "") "multipart/form-data" = true ∧
      (∃ fd, req.formData = Except.ok fd) ∧
      (POST apiKey api req).1.status = 400 ∧
      (∃ m, (POST apiKey api req).1.body = RespBody.error m) ∧
      (POST apiKey api req).2 = []) ∨
    (jsOr apiKey "" ≠ "" ∧
      ((strIncludes (req.contentType.getD "") "multipart/form-data" = true ∧
          ∃ fd, req.formData = Except.ok fd) ∨
        (strIncludes (req.contentType.getD "") "multipart/form-data" = false ∧
          ∃ b, req.jsonBody = Except.ok b)) ∧
      ∃ c, POST apiKey api req = (b64Response (api c), [c])) ∨
    (jsOr apiKey "" ≠ "" ∧
      strIncludes (req.contentType.getD "") "multipart/form-data" = false ∧
      ∃ m, req.jsonBody = Except.error m ∧
        POST apiKey api req
          = ({ status := 500,
               body := RespBody.error (if m = "" then "Unknown error" else m) },
             [])) ∨
    (jsOr apiKey "" ≠ "" ∧
      strIncludes (req.contentType.getD "") "multipart/form-data" = true ∧
      ∃ m, req.formData = Except.error m ∧
        POST apiKey api req
          = ({ status := 500,
               body := RespBody.error (if m = "" then "Unknown error" else m) },
             [])) := by
  by_cases hkey : jsOr apiKey "" = ""
  · exact Or.inl ⟨hkey, by simp only [POST, if_pos hkey]⟩
  · have hVE : (("variation" : String) = "edit") = False := eq_false (by decide)
    by_cases hct : strIncludes (req.contentType.getD "") "multipart/form-data" = true
    · rcases hform : req.formData with m | form
      · refine Or.inr (Or.inr (Or.inr (Or.inr ⟨hkey, hct, m, rfl, ?_⟩)))
        simp [POST, if_neg hkey, hct, hform]
      · by_cases hedit : jsOr form.action "generate" = "edit"
        · rcases himg : form.image with _ | entry
          · refine Or.inr (Or.inl ⟨hkey, hct, ⟨form, rfl⟩, ?_, ?_, ?_⟩) <;>
              simp [POST, if_neg hkey, hct, hform, hedit, himg]
          · rcases entry with f | sv
            · refine Or.inr (Or.inr (Or.inl ⟨hkey, Or.inl ⟨hct, form, rfl⟩, ?_⟩))
              simp only [POST, if_neg hkey, hct, if_true, hform, hedit, himg]
              exact ⟨_, rfl⟩
            · refine Or.inr (Or.inl ⟨hkey, hct, ⟨form, rfl⟩, ?_, ?_, ?_⟩) <;>
                simp [POST, if_neg hkey, hct, hform, hedit, himg]
        · by_cases hvar : jsOr form.action "generate" = "variation"
          · rcases himg : form.image with _ | entry
            · refine Or.inr (Or.inl ⟨hkey, hct, ⟨form, rfl⟩, ?_, ?_, ?_⟩) <;>
                simp [POST, if_neg hkey, hct, hform, hedit, hvar, hVE, himg]
            · rcases entry with f | sv
              · refine Or.inr (Or.inr (Or.inl ⟨hkey, Or.inl ⟨hct, form, rfl⟩, ?_⟩))
                simp only [POST, if_neg hkey, hct, if_true, hform, hvar, hVE, himg]
                exact ⟨_, rfl⟩
              · refine Or.inr (Or.inl ⟨hkey, hct, ⟨form, rfl⟩, ?_, ?_, ?_⟩) <;>
                  simp [POST, if_neg hkey, hct, hform, hedit, hvar, hVE, himg]
          · refine Or.inr (Or.inr (Or.inl ⟨hkey, Or.inl ⟨hct, form, rfl⟩, ?_⟩))
            simp only [POST, if_neg hkey, hct, if_true, hform, hedit, hvar]
            exact ⟨_, rfl⟩
    · have hctf : strIncludes (req.contentType.getD "") "multipart/form-data"
          = false := by simpa using hct
      rcases hjson : req.jsonBody with m | b
      · refine Or.inr (Or.inr (Or.inr (Or.inl ⟨hkey, hctf, m, rfl, ?_⟩)))
        simp [POST, if_neg hkey, hctf, hjson]
      · refine Or.inr (Or.inr (Or.inl ⟨hkey, Or.inr ⟨hctf, b, rfl⟩, ?_⟩))
        simp only [POST, if_neg hkey, hctf, Bool.false_eq_true, if_false, hjson]
        exact ⟨_, rfl⟩

theorem b64Response_classify (r : ApiResult) :
    ((b64Response r).status = 200 ∧ ∃ s, s ≠ "" ∧
      (b64Response r).body = RespBody.b64 s ∧
      ∃ data, r = ApiResult.ok data ∧ firstB64 data = some s) ∨
    ((b64Response r).status = 500 ∧
      (∃ m, (b64Response r).body = RespBody.error m) ∧
      ((∃ m, r = ApiResult.throwErr m) ∨
        (∃ data, r = ApiResult.ok data ∧
          (firstB64 data = none ∨ firstB64 data = some "")))) := by
  rcases r with m | data
  · exact Or.inr ⟨rfl, ⟨_, rfl⟩, Or.inl ⟨m, rfl⟩⟩
  · rcases h : firstB64 data with _ | s
    · right
      refine ⟨?_, ?_, Or.inr ⟨data, rfl, Or.inl h⟩⟩
      · simp [b64Response, h]
      · exact ⟨"no image returned", by simp [b64Response, h]⟩
    · by_cases hs : s = ""
      · subst hs
        right
        refine ⟨?_, ?_, Or.inr ⟨data, rfl, Or.inr h⟩⟩
        · simp [b64Response, h]
        · exact ⟨"no image returned", by simp [b64Response, h]⟩
      · left
        refine ⟨?_, s, hs, ?_, data, rfl, h⟩
        · simp [b64Response, h, hs]
        · simp [b64Response, h, hs]

/-- C6 counterexample: a request whose body fails to parse as JSON gets a
500 error response although the API key is set and no external call is made
at all — a 500 cause (body-parse failure) outside the three listed ones. -/
theorem json_parse_error_500_cex :
    (POST (some "k") apiConst c6badJsonReq).1.status = 500 ∧
    (POST (some "k") apiConst c6badJsonReq).2 = [] ∧
    jsOr (some "k") "" ≠ "" := by decide

/-- C6 (amended): a 200 response always carries the first non-empty base64
image of the one external call performed; a response body is never both a
b64 and an error payload; a b64 body only comes with status 200 (never a
200 with an empty image); and the status is 500 exactly when the API key is
falsy, or the JSON path was taken and the body failed to parse as JSON, or
the multipart path was taken and the body failed to parse as form data, or
the external call threw, or the external response carried no (non-empty)
first base64 image. -/
theorem proxy_response_classification (apiKey : Option String)
    (api : ApiCall → ApiResult) (req : ImagesRequest) :
    ((POST apiKey api req).1.status = 200 →
      ∃ s, s ≠ "" ∧ (POST apiKey api req).1.body = RespBody.b64 s ∧
        ∃ c data, (POST apiKey api req).2 = [c] ∧ api c = ApiResult.ok data ∧
          firstB64 data = some s) ∧
    ((∀ s, (POST apiKey api req).1.body ≠ RespBody.b64 s) ∨
      (∀ m, (POST apiKey api req).1.body ≠ RespBody.error m)) ∧
    ((∃ s, (POST apiKey api req).1.body = RespBody.b64 s) →
      (POST apiKey api req).1.status = 200) ∧
    ((POST apiKey api req).1.status = 500 ↔
      (jsOr apiKey "" = "" ∨
        (strIncludes (req.contentType.getD "") "multipart/form-data" = false ∧
          ∃ m, req.jsonBody = Except.error m) ∨
        (strIncludes (req.contentType.getD "") "multipart/form-data" = true ∧
          ∃ m, req.formData = Except.error m) ∨
        (∃ c m, (POST apiKey api req).2 = [c] ∧ api c = ApiResult.throwErr m) ∨
        (∃ c data, (POST apiKey api req).2 = [c] ∧ api c = ApiResult.ok data ∧
          (firstB64 data = none ∨ firstB64 data = some "")))) := by
  have hcases := POST_cases apiKey api req
  refine ⟨?_, ?_, ?_, ?_⟩
  · -- a 200 comes from one successful call with a non-empty first image
    intro h200
    rcases hcases with ⟨hkey, heq⟩ | ⟨hkey, hct, hfd, hst, hbody, hcalls⟩ |
      ⟨hkey, hsrc, c, heq⟩ | ⟨hkey, hct, m, hjson, heq⟩ | ⟨hkey, hct, m, hform, heq⟩
    · rw [heq] at h200
      exact absurd (show (500 : Nat) = 200 from h200) (by decide)
    · rw [hst] at h200
      exact absurd h200 (by decide)
    · rcases b64Response_classify (api c) with
        ⟨hs200, s, hsne, hbody, data, hr, hfirst⟩ | ⟨hs500, _, _⟩
      · refine ⟨s, hsne, ?_, c, data, ?_, hr, hfirst⟩
        · rw [heq]
          exact hbody
        · rw [heq]
      · rw [heq] at h200
        exact absurd (hs500.symm.trans h200) (by decide)
    · rw [heq] at h200
      exact absurd (show (500 : Nat) = 200 from h200) (by decide)
    · rw [heq] at h200
      exact absurd (show (500 : Nat) = 200 from h200) (by decide)
  · -- the body is never both a b64 and an error payload
    rcases hbody : (POST apiKey api req).1.body with s | m
    · exact Or.inr (fun m hm => RespBody.noConfusion hm)
    · exact Or.inl (fun s hs => RespBody.noConfusion hs)
  · -- a b64 body only comes with a 200 status
    rintro ⟨s, hs⟩
    rcases hcases with ⟨hkey, heq⟩ | ⟨hkey, hct, hfd, hst, ⟨m, hbody⟩, hcalls⟩ |
      ⟨hkey, hsrc, c, heq⟩ | ⟨hkey, hct, m, hjson, heq⟩ | ⟨hkey, hct, m, hform, heq⟩
    · rw [heq] at hs
      cases hs
    · rw [hbody] at hs
      cases hs
    · rcases b64Response_classify (api c) with ⟨hs200, _⟩ | ⟨hs500, ⟨m, hbody⟩, _⟩
      · rw [heq]
        exact hs200
      · rw [heq] at hs
        rw [hbody] at hs
        cases hs
    · rw [heq] at hs
      cases hs
    · rw [heq] at hs
      cases hs
  · constructor
    · -- a 500 has one of the five causes
      intro h500
      rcases hcases with ⟨hkey, heq⟩ | ⟨hkey, hct, hfd, hst, hbody, hcalls⟩ |
        ⟨hkey, hsrc, c, heq⟩ | ⟨hkey, hct, m, hjson, heq⟩ | ⟨hkey, hct, m, hform, heq⟩
      · exact Or.inl hkey
      · exact absurd (hst.symm.trans h500) (by decide)
      · rcases b64Response_classify (api c) with ⟨hs200, _⟩ | ⟨hs500, _, hsrc2⟩
        · rw [heq] at h500
          exact absurd (hs200.symm.trans h500) (by decide)
        · rcases hsrc2 with ⟨m, hr⟩ | ⟨data, hr, hbad⟩
          · exact Or.inr (Or.inr (Or.inr (Or.inl ⟨c, m, by rw [heq], hr⟩)))
          · exact Or.inr (Or.inr (Or.inr (Or.inr ⟨c, data, by rw [heq], hr, hbad⟩)))
      · exact Or.inr (Or.inl ⟨hct, m, hjson⟩)
      · exact Or.inr (Or.inr (Or.inl ⟨hct, m, hform⟩))
    · -- each of the five causes forces a 500
      intro hrhs
      rcases hrhs with hkey | ⟨hctf, m, hjson⟩ | ⟨hctmp, m, hform⟩ |
        ⟨c, m, hcalls, hthrow⟩ | ⟨c, data, hcalls, hok, hbad⟩
      · rcases hcases with ⟨_, heq⟩ | ⟨hkey2, _⟩ | ⟨hkey2, _⟩ | ⟨hkey2, _⟩ | ⟨hkey2, _⟩
        · rw [heq]
        · exact absurd hkey hkey2
        · exact absurd hkey hkey2
        · exact absurd hkey hkey2
        · exact absurd hkey hkey2
      · rcases hcases with ⟨hkey, heq⟩ | ⟨_, hct, _⟩ | ⟨_, hsrc, c, heq⟩ |
          ⟨_, _, m2, hjson2, heq⟩ | ⟨_, hct, _⟩
        · rw [heq]
        · exact absurd (hctf.symm.trans hct) (by decide)
        · rcases hsrc with ⟨hct, _⟩ | ⟨_, b, hjb⟩
          · exact absurd (hctf.symm.trans hct) (by decide)
          · rw [hjson] at hjb
            cases hjb
        · rw [heq]
        · exact absurd (hctf.symm.trans hct) (by decide)
      · rcases hcases with ⟨hkey, heq⟩ | ⟨_, _, ⟨fd, hfd⟩, _⟩ | ⟨_, hsrc, c, heq⟩ |
          ⟨_, hctf2, _⟩ | ⟨_, _, m2, hform2, heq⟩
        · rw [heq]
        · rw [hform] at hfd
          cases hfd
        · rcases hsrc with ⟨_, fd, hfd⟩ | ⟨hctf2, _⟩
          · rw [hform] at hfd
            cases hfd
          · exact absurd (hctf2.symm.trans hctmp) (by decide)
        · exact absurd (hctf2.symm.trans hctmp) (by decide)
        · rw [heq]
      · rcases hcases with ⟨hkey, heq⟩ | ⟨_, _, _, _, _, hcalls2⟩ |
          ⟨_, _, c2, heq⟩ | ⟨_, _, m2, _, heq⟩ | ⟨_, _, m2, _, heq⟩
        · rw [heq]
        · rw [hcalls2] at hcalls
          cases hcalls
        · rw [heq] at hcalls
          have hc : c2 = c := by simpa using hcalls
          rw [heq]
          show (b64Response (api c2)).status = 500
          rw [hc, hthrow]
          rfl
        · rw [heq] at hcalls
          cases hcalls
        · rw [heq] at hcalls
          cases hcalls
      · rcases hcases with ⟨hkey, heq⟩ | ⟨_, _, _, _, _, hcalls2⟩ |
          ⟨_, _, c2, heq⟩ | ⟨_, _, m2, _, heq⟩ | ⟨_, _, m2, _, heq⟩
        · rw [heq]
        · rw [hcalls2] at hcalls
          cases hcalls
        · rw [heq] at hcalls
          have hc : c2 = c := by simpa using hcalls
          rw [heq]
          show (b64Response (api c2)).status = 500
          rw [hc, hok]
          rcases hbad with h | h
          · simp [b64Response, h]
          · simp [b64Response, h]
        · rw [heq] at hcalls
          cases hcalls
        · rw [heq] at hcalls
          cases hcalls

/-- C6 witness: at the concrete JSON request, the 200 clause of the
classification yields the returned image and the one generate call; and at
the concrete multipart request whose body fails to parse as form data, the
form-parse clause of the iff forces a 500. -/
theorem proxy_response_classification_witness :
    (∃ s, s ≠ "" ∧ (POST (some "k") apiConst c1jsonReq).1.body = RespBody.b64 s ∧
      ∃ c data, (POST (some "k") apiConst c1jsonReq).2 = [c] ∧
        apiConst c = ApiResult.ok data ∧ firstB64 data = some s) ∧
    (POST (some "k") apiConst c6badFormReq).1.status = 500 :=
  ⟨(proxy_response_classification (some "k") apiConst c1jsonReq).1 (by decide),
    (proxy_response_classification (some "k") apiConst c6badFormReq).2.2.2.mpr
      (Or.inr (Or.inr (Or.inl ⟨by decide, "Failed to parse body as FormData", rfl⟩)))⟩
